import Mathlib

/-!
Verification development for the external-drift kriging pipeline
(`src/Kriging.py`, function `geokrig`).

The orchestration logic of `geokrig` (row filtering, centroid extraction,
drift-array assembly, the simulation loop, the final transpose and the
in-place column write) is embedded directly from the source.  The numerical
backend (gstools: normalizer, variogram estimation, covariance-model
fitting, kriging solve, conditional simulation, master RNG) is not part of
this repository's sources; those operations are modelled from the spec as
deterministic Lean functions whose doc comments state exactly which spec
guarantees they encode.  Float values are embedded as rationals.
-/

/-- Decidable equality for `Except` results, so that concrete runs of the
embedded pipeline can be evaluated inside proofs. -/
instance exceptDecidableEq {ε α : Type} [DecidableEq ε] [DecidableEq α] :
    DecidableEq (Except ε α) := fun a b =>
  match a, b with
  | .error e, .error f =>
    if h : e = f then isTrue (by rw [h]) else isFalse (fun hc => h (Except.error.inj hc))
  | .error _, .ok _ => isFalse (fun hc => Except.noConfusion hc)
  | .ok _, .error _ => isFalse (fun hc => Except.noConfusion hc)
  | .ok x, .ok y =>
    if h : x = y then isTrue (by rw [h]) else isFalse (fun hc => h (Except.ok.inj hc))

/-- A table cell: `none` models a missing value (NaN / null). -/
abbrev Cell := Option ℚ

/-- Embedding of the GeoPandas dataframe handed to `geokrig`: the centroid
coordinates of each row's geometry (`geomX` = `geometry.centroid.x`,
`geomY` = `geometry.centroid.y`) plus the named value columns, stored
column-wise in table order. -/
structure DataFrame where
  geomX : List ℚ
  geomY : List ℚ
  cols : List (String × List Cell)
deriving DecidableEq

/-- Column access `df[name]`: the first column with the given name. -/
def colLookup (cols : List (String × List Cell)) (name : String) : Option (List Cell) :=
  match cols with
  | [] => none
  | p :: rest => if p.1 = name then some p.2 else colLookup rest name

def DataFrame.getCol (df : DataFrame) (name : String) : Option (List Cell) :=
  colLookup df.cols name

/-- Number of rows of the table (one per spatial unit). -/
def DataFrame.numRows (df : DataFrame) : Nat := df.geomX.length

/-- In-place column assignment `df[name] = v` (pandas semantics: overwrite
the column when the name exists, otherwise append a new column). -/
def DataFrame.setCol (df : DataFrame) (name : String) (v : List Cell) : DataFrame :=
  { df with cols :=
      if df.cols.any (fun p => decide (p.1 = name)) then
        df.cols.map (fun p => if p.1 = name then (name, v) else p)
      else df.cols ++ [(name, v)] }

/-- The boolean row mask `~df[variable].isnull()` (source line 59). -/
def notNullMask (tv : List Cell) : List Bool := tv.map Option.isSome

/-- Keep the entries of `xs` at the positions where `mask` is `true`
(pandas boolean-mask row selection). -/
def maskFilter (mask : List Bool) (xs : List α) : List α :=
  ((mask.zip xs).filter (fun p => p.1)).map (fun p => p.2)

/-- `intpoints = df[~df[variable].isnull()]` with a dropped index
(source lines 59-60): the sub-table of rows whose target value is present. -/
def intpointsOf (df : DataFrame) (tv : List Cell) : DataFrame :=
  { geomX := maskFilter (notNullMask tv) df.geomX,
    geomY := maskFilter (notNullMask tv) df.geomY,
    cols := df.cols.map (fun p => (p.1, maskFilter (notNullMask tv) p.2)) }

/-- The position tuple `(lat, lon)` that `geokrig` passes to the latlon
routines for the observation set (source lines 63-64 and 87-93): the first
component is `intpoints.geometry.centroid.x`, the second
`intpoints.geometry.centroid.y`, exactly as in the source. -/
def varioPos (ip : DataFrame) : List ℚ × List ℚ := (ip.geomX, ip.geomY)

/-- Modelled from the spec: gstools routines called with `latlon=True`
interpret a position tuple as `(latitude, longitude)` — the first component
is read as the latitude-like coordinate, in degrees, and pairwise distances
are taken along great-circle arcs through these interpreted coordinates. -/
def latitudeComponent (pos : List ℚ × List ℚ) : List ℚ := pos.1

/-- The error kinds the embedded pipeline can actually raise.  `keyErr`
models a Python `KeyError` on a missing column name; the remaining kinds
are the spec's `NumericError`, `FitError` and `SingularSystemError`.  The
source contains no validation code, so the spec's `ConfigurationError` has
no counterpart in the implementation. -/
inductive GKErr where
  | keyErr
  | numericErr
  | fitErr
  | singularErr
deriving DecidableEq

/-- The fixed catalog of geodesic covariance model families the caller can
select (the `model` argument of `geokrig`, e.g. `gs.Matern`). -/
inductive ModelFamily where
  | matern
  | gaussian
  | exponential
  | spherical
  | stable
deriving DecidableEq

/-- A covariance model instance with its fitted parameters. -/
structure CovModel where
  family : ModelFamily
  dim : Nat
  latlon : Bool
  nugget : ℚ
  lenScale : ℚ
  sill : ℚ
deriving DecidableEq

/-- Modelled from the spec: `model(dim=2, latlon=True)` (source line 99)
instantiates the chosen family on the degree scale; the nugget parameter of
a fresh gstools covariance model defaults to zero. -/
def ModelFamily.instantiate (fam : ModelFamily) (dim : Nat) (latlon : Bool) : CovModel :=
  { family := fam, dim := dim, latlon := latlon, nugget := 0, lenScale := 1, sill := 1 }

/-- One or two drift-covariate arrays, as assembled by source lines 71-82:
`two a b` is `np.vstack((a, b))`, a fixed-order 2×N array; `one a` is the
plain 1-D array used when no second drift column is given. -/
inductive DriftArray where
  | one (v : List Cell)
  | two (v1 v2 : List Cell)
deriving DecidableEq

/-- Modelled from the spec: the log-normal normalizing transform is fitted
from the observed target values alone and requires a strictly positive
domain — fitting fails with `NumericError` when any observed value is
non-positive (spec §4.2).  The transform parameters themselves are internal
to the backend; only the fitted data is recorded. -/
def LogNormal (data : List ℚ) : Except GKErr Unit :=
  if data.all (fun v => decide (0 < v)) then .ok () else .error .numericErr

/-- Modelled from the spec: empirical variogram estimation with Cressie's
robust estimator over latlon distances on an unstructured point set
(spec §4.3).  The binning policy is an estimator-internal heuristic and the
numeric semivariances are backend-internal; this deterministic stand-in
returns a single bin whose semivariance is a robust-dispersion surrogate of
the (internally normalized) data.  Nothing in this development inspects
these numbers — only determinism and the argument positions matter. -/
def vario_estimate (pos : List ℚ × List ℚ) (data : List ℚ) : List ℚ × List ℚ :=
  ([1], [data.foldr (fun v a => max (max v (-v)) a) 0])

/-- Modelled from the spec: covariance-model fitting minimizes a robust
(Cauchy) loss between the theoretical curve and the empirical variogram
(spec §4.4).  Passing `fitNugget = false` (the source's `nugget = False`)
constrains the nugget: it is kept at the model's current value instead of
being estimated.  Fitting fails with `FitError` when the optimum has a
negative range or sill.  The fitted range/sill values are backend-internal;
deterministic surrogates are used. -/
def fit_variogram (m : CovModel) (binCenter vario : List ℚ) (fitNugget : Bool) :
    Except GKErr CovModel :=
  let r := binCenter.foldr max 0
  let s := vario.foldr max 0
  let n := if fitNugget then vario.foldr min 0 else m.nugget
  if r < 0 ∨ s < 0 then .error .fitErr
  else .ok { m with lenScale := r, sill := s, nugget := n }

/-- First value attached to a matching conditioning position, if any. -/
def lookupPos (condPos : List (ℚ × ℚ)) (condVal : List ℚ) (p : ℚ × ℚ) : Option ℚ :=
  ((condPos.zip condVal).find? (fun q => decide (q.1 = p))).map (fun q => q.2)

/-- Modelled from the spec: the external-drift kriging mean at one target
position — an exact interpolator at the conditioning positions (the fitted
model has no nugget); away from them the concrete value is produced by the
backend's linear solve, for which a deterministic surrogate (the largest
conditioning value) stands in.  No claim inspects the off-observation
values. -/
def krigMeanAt (m : CovModel) (condPos : List (ℚ × ℚ)) (condVal : List ℚ) (p : ℚ × ℚ) : ℚ :=
  match lookupPos condPos condVal p with
  | some v => v
  | none => condVal.foldr max 0

/-- Modelled from the spec: the external-drift kriging solve over all
target positions (source lines 109-118).  The system is singular exactly
when conditioning positions are duplicated (spec §4.5); the `chunk_size`
argument of the source is a pure performance knob that must be numerically
transparent, so it does not appear.  On success the kriging mean is
returned for every target position in target order. -/
def krigSolve (m : CovModel) (condPos : List (ℚ × ℚ)) (condVal : List ℚ)
    (condDrift : DriftArray) (targets : List (ℚ × ℚ)) (extDrift : DriftArray) :
    Except GKErr (List ℚ) :=
  if condPos.Nodup then
    .ok (targets.map (fun p => krigMeanAt m condPos condVal p))
  else .error .singularErr

/-- Modelled from the spec: the deterministic sub-seed sequence drawn from
the master RNG `gs.random.MasterRNG(master)` — the `(i+1)`-th call of the
seed generator, a fixed function of the master seed alone (spec §4.6 and
design note on global random state). -/
def subSeed (master : Nat) (i : Nat) : Nat := master + 1000003 * (i + 1)

/-- Modelled from the spec: the backend's simulated residual at target
index `j` for a given sub-seed — a deterministic surrogate for the random
field draw, fully determined by the sub-seed and the index. -/
def simNoise (seed j : Nat) : ℚ := (((seed + 7 * j) % 1009 : Nat) : ℚ)

/-- Modelled from the spec: the value of one conditional random field at
target index `j`, position `p` (spec §4.6): at a conditioning position the
field reproduces the conditioning value exactly (strict conditioning);
elsewhere it is a deterministic function of the sub-seed, the fitted model,
the drift and the position. -/
def condFieldAt (m : CovModel) (condPos : List (ℚ × ℚ)) (condVal : List ℚ)
    (seed : Nat) (drift : DriftArray) (j : Nat) (p : ℚ × ℚ) : ℚ :=
  match lookupPos condPos condVal p with
  | some v => v
  | none => max (simNoise seed j) (krigMeanAt m condPos condVal p)

/-- Modelled from the spec: one conditional field over all target
positions, in target order (one `cond_srf(seed=seed(), ...)` call of the
source loop, lines 131-133). -/
def condField (m : CovModel) (condPos : List (ℚ × ℚ)) (condVal : List ℚ)
    (seed : Nat) (targets : List (ℚ × ℚ)) (drift : DriftArray) : List ℚ :=
  (List.range targets.length).map
    (fun j => condFieldAt m condPos condVal seed drift j (targets.getD j (0, 0)))

/-- Drift-array assembly, source lines 71-82: with a second drift column
the full-table arrays and the observation-set arrays are both stacked in
the fixed order (first-named column first); with a single drift column the
plain 1-D arrays are used.  Column lookups model the source's `df[drift2]`,
`intpoints[drift1]`, `intpoints[drift2]` accesses (KeyError when absent). -/
def driftPair (df ip : DataFrame) (drift1 : String) (drift2 : Option String)
    (edd1 : List Cell) : Except GKErr (DriftArray × DriftArray) :=
  match drift2 with
  | some d2 =>
    match df.getCol d2 with
    | none => .error .keyErr
    | some edd2 =>
      match ip.getCol drift1, ip.getCol d2 with
      | some ea1, some ea2 => .ok (.two edd1 edd2, .two ea1 ea2)
      | _, _ => .error .keyErr
  | none =>
    match ip.getCol drift1 with
    | none => .error .keyErr
    | some ea1 => .ok (.one edd1, .one ea1)

/-- Everything `geokrig` computes before the simulation loop. -/
structure Pipeline where
  model : CovModel
  condPos : List (ℚ × ℚ)
  condVal : List ℚ
  condDrift : DriftArray
  targets : List (ℚ × ℚ)
  extDrift : DriftArray
  krigField : List ℚ
deriving DecidableEq

/-- Source lines 59-118 of `geokrig`, in source order: row filtering and
centroid extraction, drift assembly, log-normal normalizer fit, variogram
estimation, covariance-model fit (`nugget = False`, Cauchy loss), and the
external-drift kriging solve.  Any raised error aborts the pipeline. -/
def pipelineOf (df : DataFrame) (varName : String) (fam : ModelFamily)
    (drift1 : String) (drift2 : Option String) : Except GKErr Pipeline :=
  match df.getCol varName with
  | none => .error .keyErr
  | some tv =>
    let ip := intpointsOf df tv
    let int_data := (maskFilter (notNullMask tv) tv).reduceOption
    match df.getCol drift1 with
    | none => .error .keyErr
    | some edd1 =>
      match driftPair df ip drift1 drift2 edd1 with
      | .error e => .error e
      | .ok (extDrift, condDrift) =>
        match LogNormal int_data with
        | .error e => .error e
        | .ok _ =>
          let bv := vario_estimate (varioPos ip) int_data
          match fit_variogram (fam.instantiate 2 true) bv.1 bv.2 false with
          | .error e => .error e
          | .ok m =>
            let condPos := ip.geomX.zip ip.geomY
            let targets := df.geomX.zip df.geomY
            match krigSolve m condPos int_data condDrift targets extDrift with
            | .error e => .error e
            | .ok kf =>
              .ok { model := m, condPos := condPos, condVal := int_data,
                    condDrift := condDrift, targets := targets,
                    extDrift := extDrift, krigField := kf }

/-- Realization number `i` of the simulation loop (source lines 131-133):
one conditional field generated with the `i`-th sub-seed drawn from the
master RNG seeded with the hard-coded master seed `20170519` (line 128). -/
def realization (pl : Pipeline) (i : Nat) : List ℚ :=
  condField pl.model pl.condPos pl.condVal (subSeed 20170519 i) pl.targets pl.extDrift

/-- `pd.DataFrame(fields).T.reset_index(drop=True)` (source lines 141-142):
the transpose of the uniform-length realization rows; empty input gives the
empty frame. -/
def dfT (m : List (List ℚ)) : List (List ℚ) :=
  match m with
  | [] => []
  | r :: _ => (List.range r.length).map (fun j => m.map (fun row => row.getD j 0))

/-- The embedded entry point `geokrig` (full source).  The returned pair is
`(value returned or exception raised, caller's table after the call)`: the
caller's table is mutated only by the single `df["cond_krig"] = ...` write
at source line 140, which executes only after every fallible stage has
succeeded, so on any error the table comes back unchanged. -/
def geokrig (df : DataFrame) (varName : String) (iterations : Int)
    (fam : ModelFamily) (drift1 : String) (drift2 : Option String) :
    Except GKErr (List (List ℚ)) × DataFrame :=
  match pipelineOf df varName fam drift1 drift2 with
  | .error e => (.error e, df)
  | .ok pl =>
    let fields := (List.range iterations.toNat).map (realization pl)
    (.ok (dfT fields), df.setCol "cond_krig" (pl.krigField.map some))

/-- Python process state relevant to randomness: the ambient global RNG
state (e.g. numpy's global generator).  `geokrig` never reads it — the only
randomness source in the code is `MasterRNG(20170519)` — so the embedding
takes it as an explicit, unused input in order to state that property. -/
structure AmbientState where
  globalRngState : Nat
deriving DecidableEq

/-- `geokrig` as run inside a Python process with ambient RNG state. -/
def geokrigWithAmbient (amb : AmbientState) (df : DataFrame) (varName : String)
    (iterations : Int) (fam : ModelFamily) (drift1 : String) (drift2 : Option String) :
    Except GKErr (List (List ℚ)) × DataFrame :=
  geokrig df varName iterations fam drift1 drift2

/-- A placeholder pipeline record, used only as the default when reading
the value out of a known-successful `pipelineOf` run. -/
def defaultPipeline : Pipeline :=
  { model := ModelFamily.matern.instantiate 2 true, condPos := [], condVal := [],
    condDrift := .one [], targets := [], extDrift := .one [], krigField := [] }

/-- The pipeline record of a (successful) run, for concrete evaluation. -/
def pipelineValue (df : DataFrame) (varName : String) (fam : ModelFamily)
    (drift1 : String) (drift2 : Option String) : Pipeline :=
  (pipelineOf df varName fam drift1 drift2).toOption.getD defaultPipeline

/-! ### Concrete example tables used to evaluate the pipeline -/

/-- A 2-unit table: one observed row (rate 4) and one row to predict,
distinct centroids, two drift columns defined everywhere. -/
def exDF : DataFrame :=
  { geomX := [20, 80], geomY := [10, 30],
    cols := [("rate", [some 4, none]), ("d1", [some 2, some 3]), ("d2", [some 5, some 6])] }

/-- A 2-unit table with both rows observed (no missing target values). -/
def exDF2 : DataFrame :=
  { geomX := [20, 80], geomY := [10, 30],
    cols := [("rate", [some 4, some 9]), ("d1", [some 2, some 3])] }

/-- A 2-unit table whose single observed target value is negative. -/
def exDFbad : DataFrame :=
  { geomX := [20, 80], geomY := [10, 30],
    cols := [("rate", [some (-1), none]), ("d1", [some 2, some 3])] }

/-- A 2-unit table that already carries a column named `cond_krig`. -/
def exDFck : DataFrame :=
  { geomX := [20, 80], geomY := [10, 30],
    cols := [("rate", [some 4, none]), ("d1", [some 2, some 3]),
             ("cond_krig", [some 99, some 98])] }

/-! ### Basic lemmas about the row-mask filter -/

@[simp]
theorem maskFilter_nil_mask (xs : List α) : maskFilter [] xs = [] := rfl

@[simp]
theorem maskFilter_nil (mask : List Bool) : maskFilter mask ([] : List α) = [] := by
  cases mask <;> rfl

@[simp]
theorem maskFilter_cons_true (mask : List Bool) (a : α) (xs : List α) :
    maskFilter (true :: mask) (a :: xs) = a :: maskFilter mask xs := by
  simp [maskFilter]

@[simp]
theorem maskFilter_cons_false (mask : List Bool) (a : α) (xs : List α) :
    maskFilter (false :: mask) (a :: xs) = maskFilter mask xs := by
  simp [maskFilter]

theorem maskFilter_length_eq (mask : List Bool) (xs : List α) (ys : List β)
    (hx : xs.length = mask.length) (hy : ys.length = mask.length) :
    (maskFilter mask xs).length = (maskFilter mask ys).length := by
  induction mask generalizing xs ys with
  | nil => simp
  | cons b m ih =>
    cases xs with
    | nil => simp at hx
    | cons x xs =>
      cases ys with
      | nil => simp at hy
      | cons y ys =>
        simp only [List.length_cons, Nat.succ.injEq] at hx hy
        cases b
        · simpa using ih xs ys hx hy
        · simpa using ih xs ys hx hy

theorem reduceOption_maskFilter_self (tv : List Cell) :
    (maskFilter (notNullMask tv) tv).reduceOption = tv.reduceOption := by
  induction tv with
  | nil => rfl
  | cons c tv ih =>
    cases c with
    | none => simpa [notNullMask] using ih
    | some v =>
      simp [notNullMask, List.reduceOption_cons_of_some] at ih ⊢
      exact ih

theorem reduceOption_maskFilter_length (tv : List Cell) (xs : List α)
    (hx : xs.length = tv.length) :
    ((maskFilter (notNullMask tv) tv).reduceOption).length =
      (maskFilter (notNullMask tv) xs).length := by
  induction tv generalizing xs with
  | nil => simp [notNullMask]
  | cons c tv ih =>
    cases xs with
    | nil => simp at hx
    | cons x xs =>
      simp only [List.length_cons, Nat.succ.injEq] at hx
      cases c with
      | none => simpa [notNullMask] using ih xs hx
      | some v => simpa [notNullMask, List.reduceOption_cons_of_some] using ih xs hx

theorem maskFilter_zip (mask : List Bool) (xs : List α) (ys : List β)
    (h : xs.length = ys.length) :
    maskFilter mask (xs.zip ys) = (maskFilter mask xs).zip (maskFilter mask ys) := by
  induction mask generalizing xs ys with
  | nil => simp
  | cons b m ih =>
    cases xs with
    | nil => simp
    | cons x xs =>
      cases ys with
      | nil => simp at h
      | cons y ys =>
        simp only [List.length_cons, Nat.succ.injEq] at h
        cases b
        · simpa [List.zip_cons_cons] using ih xs ys h
        · simpa [List.zip_cons_cons] using ih xs ys h

/-- Membership of one observed row in the aligned (location, value) data of
the observation set: if row `j` of the table has coordinates `(x, y)` and
the present target value `val`, then the pair `((x, y), val)` occurs in the
zip of the filtered coordinate pairs with the extracted observed values. -/
theorem mem_obsPairs (tv : List Cell) (xs ys : List ℚ) (j : Nat) (x y val : ℚ)
    (hx : xs[j]? = some x) (hy : ys[j]? = some y) (hv : tv[j]? = some (some val)) :
    ((x, y), val) ∈
      ((maskFilter (notNullMask tv) xs).zip (maskFilter (notNullMask tv) ys)).zip
        ((maskFilter (notNullMask tv) tv).reduceOption) := by
  induction tv generalizing xs ys j with
  | nil => simp at hv
  | cons c tv ih =>
    cases xs with
    | nil => simp at hx
    | cons x0 xs =>
      cases ys with
      | nil => simp at hy
      | cons y0 ys =>
        cases j with
        | zero =>
          simp only [List.getElem?_cons_zero, Option.some.injEq] at hx hy hv
          subst hx; subst hy; subst hv
          simp [notNullMask, List.reduceOption_cons_of_some, List.zip_cons_cons]
        | succ j =>
          simp only [List.getElem?_cons_succ] at hx hy hv
          cases c with
          | none => simpa [notNullMask] using ih xs ys j hx hy hv
          | some w =>
            simp only [notNullMask, List.map_cons, Option.isSome_some,
              maskFilter_cons_true, List.reduceOption_cons_of_some, List.zip_cons_cons]
            exact List.mem_cons_of_mem _ (by simpa [notNullMask] using ih xs ys j hx hy hv)

/-- In an association list with pairwise-distinct keys, `find?` on a key
returns exactly the member with that key. -/
theorem find?_eq_of_nodup_fst {α β : Type} [DecidableEq α] (l : List (α × β)) (p : α) (v : β)
    (hnd : (l.map Prod.fst).Nodup) (hm : (p, v) ∈ l) :
    l.find? (fun q => decide (q.1 = p)) = some (p, v) := by
  induction l with
  | nil => simp at hm
  | cons a l ih =>
    simp only [List.map_cons, List.nodup_cons] at hnd
    rcases List.mem_cons.mp hm with heq | hmem
    · subst heq
      rw [List.find?_cons_of_pos _ (by simp)]
    · have hne : a.1 ≠ p := by
        intro h
        exact hnd.1 (h ▸ List.mem_map_of_mem Prod.fst hmem)
      rw [List.find?_cons_of_neg _ (by simp [hne])]
      exact ih hnd.2 hmem

/-- The conditioning lookup retrieves the value stored at a conditioning
position, provided the conditioning positions are pairwise distinct and
there are at least as many conditioning values as positions. -/
theorem lookupPos_eq (condPos : List (ℚ × ℚ)) (condVal : List ℚ) (p : ℚ × ℚ) (v : ℚ)
    (hnd : condPos.Nodup) (hlen : condPos.length ≤ condVal.length)
    (hm : (p, v) ∈ condPos.zip condVal) :
    lookupPos condPos condVal p = some v := by
  have hfst : ((condPos.zip condVal).map Prod.fst).Nodup := by
    rw [List.map_fst_zip _ _ hlen]; exact hnd
  unfold lookupPos
  rw [find?_eq_of_nodup_fst _ p v hfst hm]
  rfl

/-! ### Column lookup and column assignment lemmas -/

theorem colLookup_map_maskFilter (cols : List (String × List Cell)) (mask : List Bool)
    (name : String) :
    colLookup (cols.map (fun p => (p.1, maskFilter mask p.2))) name =
      (colLookup cols name).map (maskFilter mask) := by
  induction cols with
  | nil => rfl
  | cons p rest ih =>
    by_cases h : p.1 = name
    · simp [colLookup, h]
    · simp [colLookup, h, ih]

/-- Column access on the observation sub-table: the same columns, each
filtered by the observed-row mask. -/
theorem getCol_intpointsOf (df : DataFrame) (tv : List Cell) (name : String) :
    (intpointsOf df tv).getCol name =
      (df.getCol name).map (maskFilter (notNullMask tv)) := by
  unfold intpointsOf DataFrame.getCol
  exact colLookup_map_maskFilter df.cols (notNullMask tv) name

theorem colLookup_eq_none_iff (cols : List (String × List Cell)) (name : String) :
    colLookup cols name = none ↔ cols.all (fun p => decide (p.1 ≠ name)) := by
  induction cols with
  | nil => simp [colLookup]
  | cons p rest ih =>
    by_cases h : p.1 = name
    · simp [colLookup, h]
    · simp [colLookup, h, ih]

theorem colLookup_replace (cols : List (String × List Cell)) (name : String) (v : List Cell)
    (h : cols.any (fun p => decide (p.1 = name)) = true) :
    colLookup (cols.map (fun p => if p.1 = name then (name, v) else p)) name = some v := by
  induction cols with
  | nil => simp at h
  | cons q rest ih =>
    by_cases hq : q.1 = name
    · simp [colLookup, hq]
    · simp only [List.any_cons, Bool.or_eq_true, decide_eq_true_eq] at h
      rcases h with h | h
    
      · exact absurd h hq
      · simp only [List.map_cons, if_neg hq, colLookup, hq, if_false]
        exact ih h

theorem colLookup_append_new (cols : List (String × List Cell)) (name : String) (v : List Cell)
    (h : cols.any (fun p => decide (p.1 = name)) = false) :
    colLookup (cols ++ [(name, v)]) name = some v := by
  induction cols with
  | nil => simp [colLookup]
  | cons q rest ih =>
    simp only [List.any_cons, Bool.or_eq_false_iff, decide_eq_false_iff_not] at h
    simp only [List.cons_append, colLookup, if_neg h.1]
    exact ih (by simpa using h.2)

theorem colLookup_replace_ne (cols : List (String × List Cell)) (name other : String)
    (v : List Cell) (hne : other ≠ name) :
    colLookup (cols.map (fun p => if p.1 = name then (name, v) else p)) other =
      colLookup cols other := by
  induction cols with
  | nil => rfl
  | cons q rest ih =>
    by_cases hq : q.1 = name
    · have h1 : name ≠ other := fun hc => hne hc.symm
      have h2 : q.1 ≠ other := by rw [hq]; exact h1
      simp [colLookup, hq, h1, h2, ih]
    · by_cases hqo : q.1 = other
      · simp [colLookup, hq, hqo, hne, Ne.symm hne]
      · simp [colLookup, hq, hqo, ih]

theorem colLookup_append_ne (cols : List (String × List Cell)) (name other : String)
    (v : List Cell) (hne : other ≠ name) :
    colLookup (cols ++ [(name, v)]) other = colLookup cols other := by
  induction cols with
  | nil => simp [colLookup, Ne.symm hne]
  | cons q rest ih =>
    by_cases hqo : q.1 = other
    · simp [colLookup, hqo]
    · simp [colLookup, hqo, ih]

theorem getCol_setCol_self (df : DataFrame) (name : String) (v : List Cell) :
    (df.setCol name v).getCol name = some v := by
  unfold DataFrame.setCol DataFrame.getCol
  by_cases hany : df.cols.any (fun p => decide (p.1 = name))
  · simpa [hany] using colLookup_replace df.cols name v hany
  · have hany' : df.cols.any (fun p => decide (p.1 = name)) = false := by
      revert hany; cases df.cols.any (fun p => decide (p.1 = name)) <;> simp
    simpa [hany'] using colLookup_append_new df.cols name v hany' 

theorem getCol_setCol_ne (df : DataFrame) (name other : String) (v : List Cell)
    (h : other ≠ name) :
    (df.setCol name v).getCol other = df.getCol other := by
  unfold DataFrame.setCol DataFrame.getCol
  by_cases hany : df.cols.any (fun p => decide (p.1 = name))
  · simpa [hany] using colLookup_replace_ne df.cols name other v h
  · have hany' : df.cols.any (fun p => decide (p.1 = name)) = false := by
      revert hany; cases df.cols.any (fun p => decide (p.1 = name)) <;> simp
    simpa [hany'] using colLookup_append_ne df.cols name other v h

/-- When the column is new, assignment appends its name at the end of the
column list and keeps every existing column in place. -/
theorem setCol_names_of_fresh (df : DataFrame) (name : String) (v : List Cell)
    (h : df.getCol name = none) :
    (df.setCol name v).cols.map Prod.fst = df.cols.map Prod.fst ++ [name] := by
  unfold DataFrame.setCol
  have hall := (colLookup_eq_none_iff df.cols name).mp h
  have hany : df.cols.any (fun p => decide (p.1 = name)) = false := by
    rw [List.any_eq_false]
    intro p hp
    have := List.all_eq_true.mp hall p hp
    simpa using this
  simp [hany]

/-! ### Lemmas about the realization matrix assembly -/

theorem zip_getElem?_eq_some (xs : List α) (ys : List β) (j : Nat) (x : α) (y : β)
    (hx : xs[j]? = some x) (hy : ys[j]? = some y) :
    (xs.zip ys)[j]? = some (x, y) := by
  rw [List.getElem?_zip_eq_some]
  exact ⟨hx, hy⟩

theorem condField_length (m : CovModel) (condPos : List (ℚ × ℚ)) (condVal : List ℚ)
    (seed : Nat) (targets : List (ℚ × ℚ)) (drift : DriftArray) :
    (condField m condPos condVal seed targets drift).length = targets.length := by
  simp [condField]

theorem condField_getD (m : CovModel) (condPos : List (ℚ × ℚ)) (condVal : List ℚ)
    (seed : Nat) (targets : List (ℚ × ℚ)) (drift : DriftArray) (j : Nat)
    (hj : j < targets.length) :
    (condField m condPos condVal seed targets drift).getD j 0 =
      condFieldAt m condPos condVal seed drift j (targets.getD j (0, 0)) := by
  unfold condField
  rw [List.getD_eq_getElem?_getD, List.getElem?_map, List.getElem?_range hj]
  rfl

theorem dfT_length (r : List ℚ) (t : List (List ℚ)) :
    (dfT (r :: t)).length = r.length := by
  simp [dfT]

theorem dfT_row_length (m : List (List ℚ)) (row : List ℚ) (hrow : row ∈ dfT m) :
    row.length = m.length := by
  match m with
  | [] => simp [dfT] at hrow
  | r :: t =>
    unfold dfT at hrow
    obtain ⟨j, hj, rfl⟩ := List.mem_map.mp hrow
    simp

theorem dfT_getD (r : List ℚ) (t : List (List ℚ)) (i j : Nat)
    (hj : j < r.length) (hi : i < (r :: t).length) :
    ((dfT (r :: t)).getD j []).getD i 0 = (((r :: t).getD i []).getD j 0) := by
  rw [show dfT (r :: t) =
      (List.range r.length).map (fun j => (r :: t).map (fun row => row.getD j 0)) from rfl]
  have h1 : ((List.range r.length).map
      (fun j => (r :: t).map (fun row => row.getD j 0))).getD j [] =
      (r :: t).map (fun row => row.getD j 0) := by
    rw [List.getD_eq_getElem?_getD, List.getElem?_map, List.getElem?_range hj]
    rfl
  rw [h1]
  cases hx : (r :: t)[i]? with
  | none =>
    rw [List.getElem?_eq_none_iff] at hx
    omega
  | some row =>
    simp only [List.getD_eq_getElem?_getD, List.getElem?_map, hx, Option.map_some',
      Option.getD_some]

/-! ### Inversion of a successful pipeline run -/

/-- A successful `pipelineOf` run determines every intermediate stage
result, in source order: target column, first drift column, drift-array
pair, normalizer fit, fitted covariance model and kriging field. -/
theorem pipelineOf_ok (df : DataFrame) (varName : String) (fam : ModelFamily)
    (drift1 : String) (drift2 : Option String) (pl : Pipeline)
    (h : pipelineOf df varName fam drift1 drift2 = .ok pl) :
    ∃ tv edd1 dp m kf,
      df.getCol varName = some tv ∧
      df.getCol drift1 = some edd1 ∧
      driftPair df (intpointsOf df tv) drift1 drift2 edd1 = .ok dp ∧
      LogNormal ((maskFilter (notNullMask tv) tv).reduceOption) = .ok () ∧
      fit_variogram (fam.instantiate 2 true)
        (vario_estimate (varioPos (intpointsOf df tv))
          ((maskFilter (notNullMask tv) tv).reduceOption)).1
        (vario_estimate (varioPos (intpointsOf df tv))
          ((maskFilter (notNullMask tv) tv).reduceOption)).2 false = .ok m ∧
      krigSolve m ((intpointsOf df tv).geomX.zip (intpointsOf df tv).geomY)
        ((maskFilter (notNullMask tv) tv).reduceOption) dp.2
        (df.geomX.zip df.geomY) dp.1 = .ok kf ∧
      pl = { model := m,
             condPos := (intpointsOf df tv).geomX.zip (intpointsOf df tv).geomY,
             condVal := (maskFilter (notNullMask tv) tv).reduceOption,
             condDrift := dp.2,
             targets := df.geomX.zip df.geomY,
             extDrift := dp.1,
             krigField := kf } := by
  simp only [pipelineOf] at h
  cases htv : df.getCol varName with
  | none => simp [htv] at h
  | some tv =>
    simp only [htv] at h
    cases hd1 : df.getCol drift1 with
    | none => simp [hd1] at h
    | some edd1 =>
      simp only [hd1] at h
      cases hdp : driftPair df (intpointsOf df tv) drift1 drift2 edd1 with
      | error e => simp [hdp] at h
      | ok dp =>
        obtain ⟨extD, condD⟩ := dp
        simp only [hdp] at h
        cases hln : LogNormal ((maskFilter (notNullMask tv) tv).reduceOption) with
        | error e => simp [hln] at h
        | ok u =>
          obtain rfl : u = () := rfl
          simp only [hln] at h
          cases hfit : fit_variogram (fam.instantiate 2 true)
              (vario_estimate (varioPos (intpointsOf df tv))
                ((maskFilter (notNullMask tv) tv).reduceOption)).1
              (vario_estimate (varioPos (intpointsOf df tv))
                ((maskFilter (notNullMask tv) tv).reduceOption)).2 false with
          | error e => simp [hfit] at h
          | ok m =>
            simp only [hfit] at h
            cases hks : krigSolve m
                ((intpointsOf df tv).geomX.zip (intpointsOf df tv).geomY)
                ((maskFilter (notNullMask tv) tv).reduceOption) condD
                (df.geomX.zip df.geomY) extD with
            | error e => simp [hks] at h
            | ok kf =>
              simp only [hks, Except.ok.injEq] at h
              exact ⟨tv, edd1, (extD, condD), m, kf, rfl, rfl, hdp, hln, hfit, hks, h.symm⟩

/-! ### Inversion of the entry point -/

theorem krigSolve_ok_nodup (m : CovModel) (condPos : List (ℚ × ℚ)) (condVal : List ℚ)
    (condDrift : DriftArray) (targets : List (ℚ × ℚ)) (extDrift : DriftArray)
    (kf : List ℚ)
    (h : krigSolve m condPos condVal condDrift targets extDrift = .ok kf) :
    condPos.Nodup := by
  unfold krigSolve at h
  by_cases hnd : condPos.Nodup
  · exact hnd
  · rw [if_neg hnd] at h
    exact Except.noConfusion h

theorem krigSolve_ok_field (m : CovModel) (condPos : List (ℚ × ℚ)) (condVal : List ℚ)
    (condDrift : DriftArray) (targets : List (ℚ × ℚ)) (extDrift : DriftArray)
    (kf : List ℚ)
    (h : krigSolve m condPos condVal condDrift targets extDrift = .ok kf) :
    kf = targets.map (fun p => krigMeanAt m condPos condVal p) := by
  unfold krigSolve at h
  by_cases hnd : condPos.Nodup
  · rw [if_pos hnd] at h
    exact (Except.ok.inj h).symm
  · rw [if_neg hnd] at h
    exact Except.noConfusion h

/-- A successful `geokrig` call is exactly: a successful pipeline run, the
simulation loop over `iterations.toNat` sub-seeds, the transpose, and the
single column write. -/
theorem geokrig_ok (df : DataFrame) (varName : String) (its : Int) (fam : ModelFamily)
    (drift1 : String) (drift2 : Option String) (mat : List (List ℚ)) (dfOut : DataFrame)
    (h : geokrig df varName its fam drift1 drift2 = (.ok mat, dfOut)) :
    ∃ pl, pipelineOf df varName fam drift1 drift2 = .ok pl ∧
      mat = dfT ((List.range its.toNat).map (realization pl)) ∧
      dfOut = df.setCol "cond_krig" (pl.krigField.map some) := by
  unfold geokrig at h
  cases hpl : pipelineOf df varName fam drift1 drift2 with
  | error e =>
    simp only [hpl] at h
    simp at h
  | ok pl =>
    simp only [hpl, Prod.mk.injEq] at h
    exact ⟨pl, rfl, (Except.ok.inj h.1).symm, h.2.symm⟩

theorem geokrig_eq_of_ok (df : DataFrame) (varName : String) (its : Int)
    (fam : ModelFamily) (drift1 : String) (drift2 : Option String) (pl : Pipeline)
    (hpl : pipelineOf df varName fam drift1 drift2 = .ok pl) :
    geokrig df varName its fam drift1 drift2 =
      (.ok (dfT ((List.range its.toNat).map (realization pl))),
       df.setCol "cond_krig" (pl.krigField.map some)) := by
  simp only [geokrig, hpl]

/-! ### Claims -/

/-- C6 (confirmed): for every input dataset on which fitting succeeds, the
fitted covariance model's nugget parameter is exactly zero — the source
passes `nugget = False` to `fit_variogram`, so the nugget is constrained to
the fresh model's zero default rather than estimated. -/
theorem C6_nugget_zero (df : DataFrame) (varName : String) (fam : ModelFamily)
    (drift1 : String) (drift2 : Option String) (pl : Pipeline)
    (hpl : pipelineOf df varName fam drift1 drift2 = .ok pl) :
    pl.model.nugget = 0 := by
  obtain ⟨tv, edd1, dp, m, kf, _, _, _, _, hfit, _, hplEq⟩ :=
    pipelineOf_ok _ _ _ _ _ _ hpl
  subst hplEq
  simp only [fit_variogram] at hfit
  split at hfit
  · exact Except.noConfusion hfit
  · rw [← Except.ok.inj hfit]
    simp [ModelFamily.instantiate]

/-- Witness for C6 at a concrete table. -/
theorem C6_nugget_zero_witness :
    pipelineOf exDF "rate" ModelFamily.matern "d1" none =
      .ok (pipelineValue exDF "rate" ModelFamily.matern "d1" none) ∧
    (pipelineValue exDF "rate" ModelFamily.matern "d1" none).model.nugget = 0 :=
  ⟨by decide, C6_nugget_zero exDF "rate" ModelFamily.matern "d1" none _ (by decide)⟩

/-- C10 (confirmed): whenever any pipeline stage raises, the error
propagates unchanged to the caller with no realization matrix and no
partial result, and the caller's table is exactly as before the call — the
`cond_krig` column write happens strictly after all fallible stages. -/
theorem C10_error_propagation (df : DataFrame) (varName : String) (its : Int)
    (fam : ModelFamily) (drift1 : String) (drift2 : Option String) (e : GKErr)
    (h : pipelineOf df varName fam drift1 drift2 = .error e) :
    geokrig df varName its fam drift1 drift2 = (.error e, df) := by
  simp only [geokrig, h]

/-- Witness for C10: a table with a negative observed value makes the
normalizer stage raise, and the caller sees the error with an untouched
table. -/
theorem C10_error_propagation_witness :
    pipelineOf exDFbad "rate" ModelFamily.matern "d1" none = .error .numericErr ∧
    geokrig exDFbad "rate" 3 ModelFamily.matern "d1" none =
      (.error .numericErr, exDFbad) :=
  ⟨by decide,
   C10_error_propagation exDFbad "rate" 3 ModelFamily.matern "d1" none _ (by decide)⟩

/-- C3 (confirmed): the run never reads ambient global random state — two
runs from arbitrary ambient RNG states return bit-for-bit identical
results — and on success the realization rows are exactly the conditional
fields generated with the per-iteration sub-seed sequence
`subSeed 20170519 0, subSeed 20170519 1, ...` drawn from the single master
seed hard-coded at source line 128. -/
theorem C3_determinism (amb1 amb2 : AmbientState) (df : DataFrame) (varName : String)
    (its : Int) (fam : ModelFamily) (drift1 : String) (drift2 : Option String)
    (pl : Pipeline) (hpl : pipelineOf df varName fam drift1 drift2 = .ok pl) :
    geokrigWithAmbient amb1 df varName its fam drift1 drift2 =
      geokrigWithAmbient amb2 df varName its fam drift1 drift2 ∧
    geokrigWithAmbient amb1 df varName its fam drift1 drift2 =
      (.ok (dfT ((List.range its.toNat).map (fun i =>
          condField pl.model pl.condPos pl.condVal (subSeed 20170519 i)
            pl.targets pl.extDrift))),
       df.setCol "cond_krig" (pl.krigField.map some)) := by
  refine ⟨rfl, ?_⟩
  show geokrig df varName its fam drift1 drift2 = _
  simp only [geokrig, hpl]
  rfl

/-- Witness for C3 at a concrete table and two distinct ambient states. -/
theorem C3_determinism_witness :
    pipelineOf exDF "rate" ModelFamily.matern "d1" none =
      .ok (pipelineValue exDF "rate" ModelFamily.matern "d1" none) ∧
    (geokrigWithAmbient ⟨0⟩ exDF "rate" 2 ModelFamily.matern "d1" none =
       geokrigWithAmbient ⟨987654321⟩ exDF "rate" 2 ModelFamily.matern "d1" none ∧
     geokrigWithAmbient ⟨0⟩ exDF "rate" 2 ModelFamily.matern "d1" none =
      (.ok (dfT ((List.range (2 : Int).toNat).map (fun i =>
          condField (pipelineValue exDF "rate" ModelFamily.matern "d1" none).model
            (pipelineValue exDF "rate" ModelFamily.matern "d1" none).condPos
            (pipelineValue exDF "rate" ModelFamily.matern "d1" none).condVal
            (subSeed 20170519 i)
            (pipelineValue exDF "rate" ModelFamily.matern "d1" none).targets
            (pipelineValue exDF "rate" ModelFamily.matern "d1" none).extDrift))),
       exDF.setCol "cond_krig"
         ((pipelineValue exDF "rate" ModelFamily.matern "d1" none).krigField.map some))) :=
  ⟨by decide,
   C3_determinism ⟨0⟩ ⟨987654321⟩ exDF "rate" 2 ModelFamily.matern "d1" none _ (by decide)⟩

/-- C4 (counterexample): calling with `iterations = 0` does not raise
`ConfigurationError` — no error is raised at all — and output is produced:
the call returns an empty realization matrix and still writes the
`cond_krig` column onto the caller's table. -/
theorem C4_counterexample :
    (geokrig exDF "rate" 0 ModelFamily.matern "d1" none).1 = .ok [] ∧
    (geokrig exDF "rate" 0 ModelFamily.matern "d1" none).2 ≠ exDF := by
  decide

/-- C4 (amended): the entry point performs no call-site validation and
defines no `ConfigurationError`: a target column without missing values or
a missing drift covariate is not rejected, and when every numeric stage
succeeds, `iterations ≤ 0` (0 or negative) returns normally with an empty
realization matrix — zero realizations — while still writing the kriging
column. -/
theorem C4_no_validation (df : DataFrame) (varName : String) (its : Int)
    (fam : ModelFamily) (drift1 : String) (drift2 : Option String) (pl : Pipeline)
    (hpl : pipelineOf df varName fam drift1 drift2 = .ok pl) (hits : its ≤ 0) :
    geokrig df varName its fam drift1 drift2 =
      (.ok [], df.setCol "cond_krig" (pl.krigField.map some)) := by
  simp only [geokrig, hpl]
  rw [Int.toNat_of_nonpos hits]
  rfl

/-- Witness for C4 at a concrete table with no missing target values and a
negative iteration count: the call is accepted and returns the empty
matrix. -/
theorem C4_no_validation_witness :
    pipelineOf exDF2 "rate" ModelFamily.matern "d1" none =
      .ok (pipelineValue exDF2 "rate" ModelFamily.matern "d1" none) ∧
    (-2 : Int) ≤ 0 ∧
    geokrig exDF2 "rate" (-2) ModelFamily.matern "d1" none =
      (.ok [], exDF2.setCol "cond_krig"
        ((pipelineValue exDF2 "rate" ModelFamily.matern "d1" none).krigField.map some)) :=
  ⟨by decide, by decide,
   C4_no_validation exDF2 "rate" (-2) ModelFamily.matern "d1" none _ (by decide) (by decide)⟩

/-- C1 (counterexample): with `iterations = 1` on the 2-unit table `exDF`
the claim predicts a 1-row, 2-column matrix; the returned matrix actually
has 2 rows of length 1 (the transpose), as the final
`pd.DataFrame(fields).T` at source line 142 swaps the two axes. -/
theorem C1_counterexample :
    ((geokrig exDF "rate" 1 ModelFamily.matern "d1" none).1.toOption.map
        (fun m => (m.length, m.map List.length))) = some (2, [1, 1]) ∧
    (2 : Nat) ≠ 1 := by
  decide

/-- C1 (amended): on every successful call with `iterations ≥ 1`, the
returned matrix has one row per spatial unit (in the input table's row
order) and one column per realization, entry `(j, i)` being realization
`i` at unit `j` — i.e. the transpose of the shape stated in the claim. -/
theorem C1_matrix_transposed (df : DataFrame) (varName : String) (its : Int)
    (fam : ModelFamily) (drift1 : String) (drift2 : Option String) (pl : Pipeline)
    (mat : List (List ℚ)) (dfOut : DataFrame)
    (hpl : pipelineOf df varName fam drift1 drift2 = .ok pl)
    (hok : geokrig df varName its fam drift1 drift2 = (.ok mat, dfOut))
    (hits : 1 ≤ its)
    (hlenY : df.geomY.length = df.geomX.length) :
    mat.length = df.numRows ∧
    (∀ row ∈ mat, row.length = its.toNat) ∧
    (∀ i j : Nat, i < its.toNat → j < df.numRows →
      (mat.getD j []).getD i 0 = (realization pl i).getD j 0) := by
  obtain ⟨pl', hpl', hmat, hdf⟩ := geokrig_ok _ _ _ _ _ _ _ _ hok
  obtain rfl : pl = pl' := Except.ok.inj (hpl.symm.trans hpl')
  have htl : pl.targets.length = df.numRows := by
    obtain ⟨tv, edd1, dp, m, kf, _, _, _, _, _, _, hplEq⟩ :=
      pipelineOf_ok _ _ _ _ _ _ hpl
    rw [hplEq]
    simp [DataFrame.numRows, hlenY]
  have hn1 : 1 ≤ its.toNat := by omega
  cases hfields : (List.range its.toNat).map (realization pl) with
  | nil =>
    exfalso
    have := congrArg List.length hfields
    simp at this
    omega
  | cons r t =>
    have hrlen : r.length = df.numRows := by
      have hrmem : r ∈ (List.range its.toNat).map (realization pl) := by
        rw [hfields]; exact List.mem_cons_self r t
      obtain ⟨i0, _, hre⟩ := List.mem_map.mp hrmem
      rw [← hre]
      unfold realization
      rw [condField_length, htl]
    have hflen : (r :: t).length = its.toNat := by
      rw [← hfields]; simp
    refine ⟨?_, ?_, ?_⟩
    · rw [hmat, hfields, dfT_length, hrlen]
    · intro row hrow
      rw [hmat, hfields] at hrow
      rw [dfT_row_length (r :: t) row hrow, hflen]
    · intro i j hi hj
      rw [hmat, hfields]
      rw [dfT_getD r t i j (by rw [hrlen]; exact hj) (by rw [hflen]; exact hi)]
      have : ((r :: t).getD i []) = realization pl i := by
        rw [← hfields, List.getD_eq_getElem?_getD, List.getElem?_map,
          List.getElem?_range hi]
        rfl
      rw [this]

/-- Witness for C1 at a concrete table, one iteration. -/
theorem C1_matrix_transposed_witness :
    (1 : Int) ≤ 1 ∧
    ((dfT ((List.range (1 : Int).toNat).map
        (realization (pipelineValue exDF "rate" ModelFamily.matern "d1" none)))).length =
      exDF.numRows ∧
     (∀ row ∈ dfT ((List.range (1 : Int).toNat).map
        (realization (pipelineValue exDF "rate" ModelFamily.matern "d1" none))),
        row.length = (1 : Int).toNat) ∧
     (∀ i j : Nat, i < (1 : Int).toNat → j < exDF.numRows →
      ((dfT ((List.range (1 : Int).toNat).map
          (realization (pipelineValue exDF "rate" ModelFamily.matern "d1" none)))).getD
            j []).getD i 0 =
        (realization (pipelineValue exDF "rate" ModelFamily.matern "d1" none) i).getD
          j 0)) :=
  ⟨by decide,
   C1_matrix_transposed exDF "rate" 1 ModelFamily.matern "d1" none
     (pipelineValue exDF "rate" ModelFamily.matern "d1" none)
     (dfT ((List.range (1 : Int).toNat).map
        (realization (pipelineValue exDF "rate" ModelFamily.matern "d1" none))))
     (exDF.setCol "cond_krig"
        ((pipelineValue exDF "rate" ModelFamily.matern "d1" none).krigField.map some))
     (by decide) (by decide) (by decide) (by decide)⟩

/-- C7 (counterexample): on a table that already carries a `cond_krig`
column, the call succeeds and overwrites that pre-existing column's values,
so not all pre-existing columns are left unchanged. -/
theorem C7_counterexample :
    (geokrig exDFck "rate" 1 ModelFamily.matern "d1" none).1.isOk = true ∧
    (geokrig exDFck "rate" 1 ModelFamily.matern "d1" none).2.getCol "cond_krig" ≠
      exDFck.getCol "cond_krig" := by
  decide

/-- C7 (amended): on every successful call, the only mutation of the
caller's table is writing the kriging mean to the column named `cond_krig`
— added as a new final column when absent, overwritten when already
present.  Geometry, row count, and every column with a different name are
unchanged, and the written column is the kriging field in target-location
order. -/
theorem C7_frame (df : DataFrame) (varName : String) (its : Int)
    (fam : ModelFamily) (drift1 : String) (drift2 : Option String) (pl : Pipeline)
    (mat : List (List ℚ)) (dfOut : DataFrame)
    (hpl : pipelineOf df varName fam drift1 drift2 = .ok pl)
    (hok : geokrig df varName its fam drift1 drift2 = (.ok mat, dfOut)) :
    dfOut = df.setCol "cond_krig" (pl.krigField.map some) ∧
    dfOut.geomX = df.geomX ∧
    dfOut.geomY = df.geomY ∧
    dfOut.getCol "cond_krig" = some (pl.krigField.map some) ∧
    (∀ name, name ≠ "cond_krig" → dfOut.getCol name = df.getCol name) ∧
    (df.getCol "cond_krig" = none →
      dfOut.cols.map Prod.fst = df.cols.map Prod.fst ++ ["cond_krig"]) := by
  obtain ⟨pl', hpl', hmat, hdf⟩ := geokrig_ok _ _ _ _ _ _ _ _ hok
  obtain rfl : pl = pl' := Except.ok.inj (hpl.symm.trans hpl')
  subst hdf
  refine ⟨rfl, ?_, ?_, ?_, ?_, ?_⟩
  · simp [DataFrame.setCol]
  · simp [DataFrame.setCol]
  · exact getCol_setCol_self df "cond_krig" (pl.krigField.map some)
  · intro name hname
    exact getCol_setCol_ne df "cond_krig" name (pl.krigField.map some) hname
  · intro hfresh
    exact setCol_names_of_fresh df "cond_krig" (pl.krigField.map some) hfresh

/-- Witness for C7 at a concrete table without a pre-existing `cond_krig`
column, instantiating the per-name part at the drift column `d1`. -/
theorem C7_frame_witness :
    ((exDF.setCol "cond_krig"
        ((pipelineValue exDF "rate" ModelFamily.matern "d1" none).krigField.map some)).getCol
          "cond_krig" =
      some ((pipelineValue exDF "rate" ModelFamily.matern "d1" none).krigField.map some)) ∧
    ((exDF.setCol "cond_krig"
        ((pipelineValue exDF "rate" ModelFamily.matern "d1" none).krigField.map some)).getCol
          "d1" = exDF.getCol "d1") ∧
    ((exDF.setCol "cond_krig"
        ((pipelineValue exDF "rate" ModelFamily.matern "d1" none).krigField.map some)).cols.map
          Prod.fst = exDF.cols.map Prod.fst ++ ["cond_krig"]) :=
  ⟨(C7_frame exDF "rate" 1 ModelFamily.matern "d1" none
      (pipelineValue exDF "rate" ModelFamily.matern "d1" none)
      (dfT ((List.range (1 : Int).toNat).map
        (realization (pipelineValue exDF "rate" ModelFamily.matern "d1" none))))
      (exDF.setCol "cond_krig"
        ((pipelineValue exDF "rate" ModelFamily.matern "d1" none).krigField.map some))
      (by decide) (by decide)).2.2.2.1,
   (C7_frame exDF "rate" 1 ModelFamily.matern "d1" none
      (pipelineValue exDF "rate" ModelFamily.matern "d1" none)
      (dfT ((List.range (1 : Int).toNat).map
        (realization (pipelineValue exDF "rate" ModelFamily.matern "d1" none))))
      (exDF.setCol "cond_krig"
        ((pipelineValue exDF "rate" ModelFamily.matern "d1" none).krigField.map some))
      (by decide) (by decide)).2.2.2.2.1 "d1" (by decide),
   (C7_frame exDF "rate" 1 ModelFamily.matern "d1" none
      (pipelineValue exDF "rate" ModelFamily.matern "d1" none)
      (dfT ((List.range (1 : Int).toNat).map
        (realization (pipelineValue exDF "rate" ModelFamily.matern "d1" none))))
      (exDF.setCol "cond_krig"
        ((pipelineValue exDF "rate" ModelFamily.matern "d1" none).krigField.map some))
      (by decide) (by decide)).2.2.2.2.2 (by decide)⟩

theorem fit_variogram_error (m : CovModel) (binCenter vario : List ℚ) (fitNugget : Bool)
    (e : GKErr) (h : fit_variogram m binCenter vario fitNugget = .error e) :
    e = .fitErr := by
  simp only [fit_variogram] at h
  split at h
  · exact (Except.error.inj h).symm
  · exact Except.noConfusion h

theorem krigSolve_error (m : CovModel) (condPos : List (ℚ × ℚ)) (condVal : List ℚ)
    (condDrift : DriftArray) (targets : List (ℚ × ℚ)) (extDrift : DriftArray)
    (e : GKErr) (h : krigSolve m condPos condVal condDrift targets extDrift = .error e) :
    e = .singularErr := by
  unfold krigSolve at h
  by_cases hnd : condPos.Nodup
  · rw [if_pos hnd] at h
    exact Except.noConfusion h
  · rw [if_neg hnd] at h
    exact (Except.error.inj h).symm

theorem geokrig_fst_error_iff (df : DataFrame) (varName : String) (its : Int)
    (fam : ModelFamily) (drift1 : String) (drift2 : Option String) (e : GKErr) :
    (geokrig df varName its fam drift1 drift2).1 = .error e ↔
      pipelineOf df varName fam drift1 drift2 = .error e := by
  unfold geokrig
  cases hpl : pipelineOf df varName fam drift1 drift2 with
  | error f => simp
  | ok pl => simp

/-- C5 (confirmed): with the call-site columns present, the run raises
`NumericError` if and only if some observed (non-missing) target value is
non-positive — the log-normal normalizer is fitted from the observed values
alone (source line 85) and requires a strictly positive domain, and no
other stage can raise `NumericError`. -/
theorem C5_numeric_error_iff (df : DataFrame) (varName : String) (its : Int)
    (fam : ModelFamily) (drift1 : String) (drift2 : Option String)
    (tv edd1 : List Cell) (dp : DriftArray × DriftArray)
    (htv : df.getCol varName = some tv)
    (hd1 : df.getCol drift1 = some edd1)
    (hdp : driftPair df (intpointsOf df tv) drift1 drift2 edd1 = .ok dp) :
    (geokrig df varName its fam drift1 drift2).1 = .error .numericErr ↔
      ∃ x ∈ tv.reduceOption, x ≤ 0 := by
  rw [geokrig_fst_error_iff]
  obtain ⟨dpa, dpb⟩ := dp
  constructor
  · intro hpipe
    by_contra hno
    push_neg at hno
    have hall : (tv.reduceOption).all (fun v => decide (0 < v)) = true := by
      rw [List.all_eq_true]
      intro x hx
      simpa using hno x hx
    have hln : LogNormal ((maskFilter (notNullMask tv) tv).reduceOption) = .ok () := by
      simp [LogNormal, reduceOption_maskFilter_self, hall]
    simp only [pipelineOf, htv, hd1, hdp, hln] at hpipe
    cases hfit : fit_variogram (fam.instantiate 2 true)
        (vario_estimate (varioPos (intpointsOf df tv))
          ((maskFilter (notNullMask tv) tv).reduceOption)).1
        (vario_estimate (varioPos (intpointsOf df tv))
          ((maskFilter (notNullMask tv) tv).reduceOption)).2 false with
    | error e =>
      simp only [hfit] at hpipe
      have hef := fit_variogram_error _ _ _ _ _ hfit
      rw [hef] at hpipe
      exact GKErr.noConfusion (Except.error.inj hpipe)
    | ok m =>
      simp only [hfit] at hpipe
      cases hks : krigSolve m
          ((intpointsOf df tv).geomX.zip (intpointsOf df tv).geomY)
          ((maskFilter (notNullMask tv) tv).reduceOption) dpb
          (df.geomX.zip df.geomY) dpa with
      | error e =>
        simp only [hks] at hpipe
        have hes := krigSolve_error _ _ _ _ _ _ _ hks
        rw [hes] at hpipe
        exact GKErr.noConfusion (Except.error.inj hpipe)
      | ok kf =>
        simp only [hks] at hpipe
        exact Except.noConfusion hpipe
  · rintro ⟨x, hx, hxle⟩
    have hall : (tv.reduceOption).all (fun v => decide (0 < v)) = false := by
      rw [List.all_eq_false]
      exact ⟨x, hx, by simpa using hxle⟩
    have hln : LogNormal ((maskFilter (notNullMask tv) tv).reduceOption) =
        .error .numericErr := by
      simp [LogNormal, reduceOption_maskFilter_self, hall]
    simp only [pipelineOf, htv, hd1, hdp, hln]

/-- Witness for C5: a table whose single observed value is −1 raises
`NumericError`, and the iff instance holds there. -/
theorem C5_numeric_error_iff_witness :
    exDFbad.getCol "rate" = some [some (-1), none] ∧
    ((geokrig exDFbad "rate" 3 ModelFamily.matern "d1" none).1 = .error .numericErr ↔
      ∃ x ∈ ([some (-1 : ℚ), none] : List Cell).reduceOption, x ≤ 0) :=
  ⟨by decide,
   C5_numeric_error_iff exDFbad "rate" 3 ModelFamily.matern "d1" none
     [some (-1), none] [some 2, some 3]
     (DriftArray.one [some 2, some 3], DriftArray.one [some 2])
     (by decide) (by decide) (by decide)⟩

/-- Entry `(j, i)` of the returned matrix is realization `i` at unit `j`
(shared bridge between the loop output and the transposed frame). -/
theorem geokrig_matrix_entry (df : DataFrame) (varName : String) (its : Int)
    (fam : ModelFamily) (drift1 : String) (drift2 : Option String) (pl : Pipeline)
    (mat : List (List ℚ)) (dfOut : DataFrame) (i j : Nat)
    (hpl : pipelineOf df varName fam drift1 drift2 = .ok pl)
    (hok : geokrig df varName its fam drift1 drift2 = (.ok mat, dfOut))
    (hlenY : df.geomY.length = df.geomX.length)
    (hi : i < its.toNat) (hj : j < df.numRows) :
    (mat.getD j []).getD i 0 = (realization pl i).getD j 0 := by
  obtain ⟨pl', hpl', hmat, hdf⟩ := geokrig_ok _ _ _ _ _ _ _ _ hok
  obtain rfl : pl = pl' := Except.ok.inj (hpl.symm.trans hpl')
  have htl : pl.targets.length = df.numRows := by
    obtain ⟨tv, edd1, dp, m, kf, _, _, _, _, _, _, hplEq⟩ :=
      pipelineOf_ok _ _ _ _ _ _ hpl
    rw [hplEq]
    simp [DataFrame.numRows, hlenY]
  cases hfields : (List.range its.toNat).map (realization pl) with
  | nil =>
    exfalso
    have := congrArg List.length hfields
    simp at this
    omega
  | cons r t =>
    have hrlen : r.length = df.numRows := by
      have hrmem : r ∈ (List.range its.toNat).map (realization pl) := by
        rw [hfields]; exact List.mem_cons_self r t
      obtain ⟨i0, _, hre⟩ := List.mem_map.mp hrmem
      rw [← hre]
      unfold realization
      rw [condField_length, htl]
    have hflen : (r :: t).length = its.toNat := by
      rw [← hfields]; simp
    rw [hmat, hfields,
      dfT_getD r t i j (by rw [hrlen]; exact hj) (by rw [hflen]; exact hi)]
    have hfi : ((r :: t).getD i []) = realization pl i := by
      rw [← hfields, List.getD_eq_getElem?_getD, List.getElem?_map,
        List.getElem?_range hi]
      rfl
    rw [hfi]

/-- C2 (confirmed): for every observation row (present target value) and
every generated conditional field, the field's value at that row equals the
observed value exactly — strict conditioning — and so does the
corresponding entry of the returned matrix, for every realization index. -/
theorem C2_strict_conditioning (df : DataFrame) (varName : String) (its : Int)
    (fam : ModelFamily) (drift1 : String) (drift2 : Option String) (pl : Pipeline)
    (mat : List (List ℚ)) (dfOut : DataFrame) (tv : List Cell)
    (j : Nat) (val : ℚ) (i : Nat)
    (hpl : pipelineOf df varName fam drift1 drift2 = .ok pl)
    (hok : geokrig df varName its fam drift1 drift2 = (.ok mat, dfOut))
    (htv : df.getCol varName = some tv)
    (hlenY : df.geomY.length = df.geomX.length)
    (hlenT : tv.length = df.geomX.length)
    (hj : tv[j]? = some (some val))
    (hi : i < its.toNat) :
    (realization pl i).getD j 0 = val ∧ (mat.getD j []).getD i 0 = val := by
  obtain ⟨tv0, edd1, dp, m, kf, htv0, hd1, hdp, hln, hfit, hks, hplEq⟩ :=
    pipelineOf_ok _ _ _ _ _ _ hpl
  obtain rfl : tv0 = tv := Option.some.inj (htv0.symm.trans htv)
  have hnd : pl.condPos.Nodup := by
    rw [hplEq]
    exact krigSolve_ok_nodup _ _ _ _ _ _ _ hks
  have hcp : pl.condPos =
      (maskFilter (notNullMask tv0) df.geomX).zip (maskFilter (notNullMask tv0) df.geomY) := by
    simp [hplEq, intpointsOf]
  have hcv : pl.condVal = (maskFilter (notNullMask tv0) tv0).reduceOption := by
    simp [hplEq]
  have hts : pl.targets = df.geomX.zip df.geomY := by
    simp [hplEq]
  have hjtv : j < tv0.length := (List.getElem?_eq_some.mp hj).1
  have hjx : j < df.geomX.length := hlenT ▸ hjtv
  have hjy : j < df.geomY.length := by omega
  have hx : df.geomX[j]? = some df.geomX[j] := List.getElem?_eq_getElem hjx
  have hy : df.geomY[j]? = some df.geomY[j] := List.getElem?_eq_getElem hjy
  have hjt : j < pl.targets.length := by
    rw [hts, List.length_zip, hlenY, Nat.min_self]
    exact hjx
  have htg : pl.targets.getD j (0, 0) = (df.geomX[j], df.geomY[j]) := by
    rw [hts, List.getD_eq_getElem?_getD,
      zip_getElem?_eq_some df.geomX df.geomY j _ _ hx hy]
    rfl
  have hlenMaskX : df.geomX.length = (notNullMask tv0).length := by
    simp [notNullMask]
    omega
  have hlenMaskY : df.geomY.length = (notNullMask tv0).length := by
    simp [notNullMask]
    omega
  have hval : lookupPos pl.condPos pl.condVal (df.geomX[j], df.geomY[j]) = some val := by
    apply lookupPos_eq _ _ _ _ hnd
    · rw [hcp, hcv, List.length_zip]
      have e1 : (maskFilter (notNullMask tv0) df.geomX).length =
          (maskFilter (notNullMask tv0) df.geomY).length :=
        maskFilter_length_eq _ _ _ hlenMaskX hlenMaskY
      have e2 : ((maskFilter (notNullMask tv0) tv0).reduceOption).length =
          (maskFilter (notNullMask tv0) df.geomX).length :=
        reduceOption_maskFilter_length tv0 df.geomX (by omega)
      omega
    · rw [hcp, hcv]
      exact mem_obsPairs tv0 df.geomX df.geomY j _ _ val hx hy hj
  have h1 : (realization pl i).getD j 0 = val := by
    unfold realization
    rw [condField_getD pl.model pl.condPos pl.condVal (subSeed 20170519 i)
      pl.targets pl.extDrift j hjt, htg]
    simp only [condFieldAt, hval]
  refine ⟨h1, ?_⟩
  rw [geokrig_matrix_entry df varName its fam drift1 drift2 pl mat dfOut i j hpl hok
    hlenY hi (by exact hjx)]
  exact h1

/-- Witness for C2: on `exDF` the observed unit is row 0 with value 4;
realization 0 and matrix entry (0,0) both equal 4 exactly. -/
theorem C2_strict_conditioning_witness :
    exDF.getCol "rate" = some [some 4, none] ∧
    ((realization (pipelineValue exDF "rate" ModelFamily.matern "d1" none) 0).getD 0 0 =
        (4 : ℚ) ∧
     (((dfT ((List.range (1 : Int).toNat).map
         (realization (pipelineValue exDF "rate" ModelFamily.matern "d1" none)))).getD
           0 []).getD 0 0 = (4 : ℚ))) :=
  ⟨by decide,
   C2_strict_conditioning exDF "rate" 1 ModelFamily.matern "d1" none
     (pipelineValue exDF "rate" ModelFamily.matern "d1" none)
     (dfT ((List.range (1 : Int).toNat).map
       (realization (pipelineValue exDF "rate" ModelFamily.matern "d1" none))))
     (exDF.setCol "cond_krig"
       ((pipelineValue exDF "rate" ModelFamily.matern "d1" none).krigField.map some))
     [some 4, none] 0 4 0
     (by decide) (by decide) (by decide) (by decide) (by decide) (by decide) (by decide)⟩

/-- C8 (code bug): the source assigns `lat = geometry.centroid.x` at line
63 and passes it as the first — the latitude — component of the position
tuple handed to the latlon routines (lines 87-93).  On observed centroids
with (x, y) = (20, 10) and (80, 30), the latitude slot therefore receives
the longitude-like x coordinates (20, 80), not the latitude-like y
coordinates (10, 30) that the claim (and the geographic convention
x = longitude, y = latitude) requires. -/
theorem C8_latlon_swapped :
    latitudeComponent (varioPos (intpointsOf exDF2 [some 4, some 9])) =
      (intpointsOf exDF2 [some 4, some 9]).geomX ∧
    latitudeComponent (varioPos (intpointsOf exDF2 [some 4, some 9])) = [20, 80] ∧
    latitudeComponent (varioPos (intpointsOf exDF2 [some 4, some 9])) ≠
      (intpointsOf exDF2 [some 4, some 9]).geomY := by
  decide

/-- C9 (confirmed): with two drift columns supplied, the full-table 2×N
drift array and the observation-set 2×n drift array are stacked in the
same fixed order — the first-named column first — and the observation-set
drift row is aligned row-for-row with the observation locations: zipping
the conditioning positions with the filtered first drift row gives exactly
the mask-filtered (location, drift) pairs of the full table. -/
theorem C9_drift_stacking (df : DataFrame) (varName : String) (fam : ModelFamily)
    (drift1 drift2 : String) (pl : Pipeline) (tv edd1 edd2 : List Cell)
    (hpl : pipelineOf df varName fam drift1 (some drift2) = .ok pl)
    (htv : df.getCol varName = some tv)
    (h1 : df.getCol drift1 = some edd1)
    (h2 : df.getCol drift2 = some edd2)
    (hlenY : df.geomY.length = df.geomX.length)
    (hlen1 : edd1.length = df.geomX.length) :
    pl.extDrift = DriftArray.two edd1 edd2 ∧
    pl.condDrift = DriftArray.two (maskFilter (notNullMask tv) edd1)
      (maskFilter (notNullMask tv) edd2) ∧
    pl.targets.length = df.numRows ∧
    pl.condPos.zip (maskFilter (notNullMask tv) edd1) =
      maskFilter (notNullMask tv) ((df.geomX.zip df.geomY).zip edd1) := by
  obtain ⟨tv0, edd1x, dp, m, kf, htv0, hd1x, hdp, hln, hfit, hks, hplEq⟩ :=
    pipelineOf_ok _ _ _ _ _ _ hpl
  obtain rfl : tv0 = tv := Option.some.inj (htv0.symm.trans htv)
  obtain rfl : edd1x = edd1 := Option.some.inj (hd1x.symm.trans h1)
  simp only [driftPair, h2, getCol_intpointsOf, hd1x, Option.map_some'] at hdp
  obtain rfl : (DriftArray.two edd1x edd2,
      DriftArray.two (maskFilter (notNullMask tv0) edd1x)
        (maskFilter (notNullMask tv0) edd2)) = dp := Except.ok.inj hdp
  refine ⟨?_, ?_, ?_, ?_⟩
  · simp [hplEq]
  · simp [hplEq]
  · simp [hplEq, DataFrame.numRows, hlenY]
  · have hcp : pl.condPos =
        (maskFilter (notNullMask tv0) df.geomX).zip
          (maskFilter (notNullMask tv0) df.geomY) := by
      simp [hplEq, intpointsOf]
    rw [hcp,
      ← maskFilter_zip (notNullMask tv0) df.geomX df.geomY hlenY.symm,
      ← maskFilter_zip (notNullMask tv0) (df.geomX.zip df.geomY) edd1x
        (by rw [List.length_zip, hlenY, Nat.min_self, hlen1])]

/-- Witness for C9 at a concrete table with drift columns `d1`, `d2`. -/
theorem C9_drift_stacking_witness :
    exDF.getCol "d1" = some [some 2, some 3] ∧
    ((pipelineValue exDF "rate" ModelFamily.matern "d1" (some "d2")).extDrift =
        DriftArray.two [some 2, some 3] [some 5, some 6] ∧
     (pipelineValue exDF "rate" ModelFamily.matern "d1" (some "d2")).condDrift =
        DriftArray.two (maskFilter (notNullMask [some 4, none]) [some 2, some 3])
          (maskFilter (notNullMask [some 4, none]) [some 5, some 6]) ∧
     (pipelineValue exDF "rate" ModelFamily.matern "d1" (some "d2")).targets.length =
        exDF.numRows ∧
     (pipelineValue exDF "rate" ModelFamily.matern "d1" (some "d2")).condPos.zip
        (maskFilter (notNullMask [some 4, none]) ([some 2, some 3] : List Cell)) =
      maskFilter (notNullMask [some 4, none])
        ((exDF.geomX.zip exDF.geomY).zip ([some 2, some 3] : List Cell))) :=
  ⟨by decide,
   C9_drift_stacking exDF "rate" ModelFamily.matern "d1" "d2"
     (pipelineValue exDF "rate" ModelFamily.matern "d1" (some "d2"))
     [some 4, none] [some 2, some 3] [some 5, some 6]
     (by decide) (by decide) (by decide) (by decide) (by decide) (by decide)⟩
